import Mathlib

/-!
Shallow embedding of `tensortrade/oms/services/execution/simulated.py`
(the simulated order-execution engine): `execute_buy_order`,
`execute_sell_order` and `execute_order`, together with the pieces of the
surrounding OMS data model that those functions touch.

Numbers: Python `Decimal` amounts and `float` prices are both embedded as
rationals (`ℚ`).  The two places where the Python code can raise
`ZeroDivisionError` — the market-order scale `order.price /
max(current_price, order.price)` and the live-mode debug computation
`int(float(order.quantity.size) / float(order.price_online))` — are made
explicit by returning `Except ExecError _`.

Effects: the Python functions mutate wallets only through `Wallet.transfer`
and mutate the order only through `order.cancel`.  Both are captured in the
returned `ExecResult`: the list of transfer invocations performed (with all
their arguments) and the cancellation reason, if any.  An empty transfer
list means neither wallet was touched.

External collaborators (`Quantity.contain`, `Wallet.transfer`) live outside
the provided sources, so they are abstracted as an `ExecEnv` of
uninterpreted functions; theorems quantify over every environment.
-/

namespace TensorTrade

/-- Modelled from the spec: an instrument (defined in
`tensortrade.oms.instruments`, outside the provided sources) is a symbol
together with a decimal precision, the number of fractional digits. -/
structure Instrument where
  symbol : String
  precision : Nat
deriving DecidableEq

/-- Modelled from the spec: a quantity (defined in
`tensortrade.oms.instruments.quantity`, outside the provided sources) is a
fixed-point amount tied to an instrument.  The field is named `size` as in
the source (`commission.size`). -/
structure Quantity where
  size : ℚ
  instrument : Instrument
deriving DecidableEq

/-- Modelled from the spec: scalar multiplication `rate * quantity`
(`Decimal.__mul__` / `Quantity.__rmul__`): the amount is scaled, the
instrument kept.  Used for `options.commission * filled`, the Fee Policy of
spec §4.1, and for the market scale `scale * filled`. -/
def Quantity.scale (r : ℚ) (q : Quantity) : Quantity :=
  { size := r * q.size, instrument := q.instrument }

/-- Modelled from the spec: subtraction of two quantities of the same
instrument (`Quantity.__sub__`, outside the provided sources), used for
`quantity = filled - commission`. -/
def Quantity.sub (a b : Quantity) : Quantity :=
  { size := a.size - b.size, instrument := a.instrument }

/-- Order type, from `tensortrade.oms.orders.TradeType`. -/
inductive TradeType where
  | MARKET
  | LIMIT
deriving DecidableEq

/-- Trade side, from `tensortrade.oms.orders.TradeSide`. -/
inductive TradeSide where
  | BUY
  | SELL
deriving DecidableEq

/-- An exchange pair: base and quote instrument (spec §3). -/
structure ExchangePair where
  base : Instrument
  quote : Instrument
deriving DecidableEq

/-- The fields of `Order` that `simulated.py` reads: type, the buy/sell
classification flags (`order.is_buy`, `order.is_sell` — both may be false
for a terminal order), the backtest limit price `price`, the live price
`price_online`, the requested `quantity` (read by the live-mode debug
print), the `remaining` quantity, the exchange pair and the id. -/
structure Order where
  id : String
  type : TradeType
  is_buy : Bool
  is_sell : Bool
  price : ℚ
  price_online : ℚ
  quantity : Quantity
  remaining : Quantity
  exchange_pair : ExchangePair
deriving DecidableEq

/-- `ExchangeOptions`: the commission rate (spec §3). -/
structure ExchangeOptions where
  commission : ℚ
deriving DecidableEq

/-- The clock: a step counter, read-only here (spec §3). -/
structure Clock where
  step : Nat
deriving DecidableEq

/-- An immutable trade record, mirroring the keyword arguments of the
`Trade` constructor calls in `simulated.py`. -/
structure Trade where
  order_id : String
  step : Nat
  exchange_pair : ExchangePair
  side : TradeSide
  trade_type : TradeType
  quantity : Quantity
  price : ℚ
  commission : Quantity
deriving DecidableEq

/-- Which of the two wallets passed to `execute_order` a transfer names. -/
inductive WalletRef where
  | base
  | quote
deriving DecidableEq

/-- The arguments of one `Wallet.transfer(...)` invocation, mirroring the
keyword arguments at the two call sites in `simulated.py`. -/
structure TransferArgs where
  source : WalletRef
  target : WalletRef
  quantity : Quantity
  commission : Quantity
  exchange_pair : ExchangePair
  reason : String
  t_signal : Bool
deriving DecidableEq

/-- Modelled from the spec: the record returned by `Wallet.transfer`
(spec §4.2) — the realized quantity, price and commission actually applied,
which may differ from the nominal request by rounding. -/
structure Transfer where
  quantity : Quantity
  price : ℚ
  commission : Quantity
deriving DecidableEq

/-- The external collaborators of the execution engine, abstracted:
`contain` stands for `Quantity.contain(exchange_pair, t_signal)` (the
conversion of the remaining amount into the pair's terms, outside the
provided sources), and `transfer` stands for the value `Wallet.transfer`
returns for given arguments.  Theorems quantify over every environment. -/
structure ExecEnv where
  contain : Quantity → ExchangePair → Bool → Quantity
  transfer : TransferArgs → Transfer

/-- The one runtime error the embedded code can raise:
`ZeroDivisionError`. -/
inductive ExecError where
  | zeroDivision
deriving DecidableEq

/-- What one call of the engine did: the returned trade (`none` = the
Python code returned `None`), the `Wallet.transfer` invocations it
performed, in order, and the reason passed to `order.cancel`, if the order
was cancelled.  Wallet mutation happens only through `transfers`; order
mutation only through `cancel`. -/
structure ExecResult where
  trade : Option Trade
  transfers : List TransferArgs
  cancel : Option String
deriving DecidableEq

/-- The result of a path that returns `None` having performed no transfer
and no cancellation. -/
def ExecResult.noEffect : ExecResult :=
  { trade := none, transfers := [], cancel := none }

/-- The price field the engine consults, per `t_signal`: `order.price` in
the backtest branch (`if t_signal:`), `order.price_online` in the live
branch (`else:`) — lines 40–53 and 117–122 of `simulated.py` are two
structurally identical branches differing only in this field. -/
def chosen_price (order : Order) (t_signal : Bool) : ℚ :=
  if t_signal then order.price else order.price_online

/-- The filled quantity a buy order computes (lines 43–46 / 50–53):
the remaining amount converted by `contain`, scaled for market orders by
`chosen / max(current_price, chosen)`.  (Division by zero in this scale is
surfaced separately by `execute_buy_order`.) -/
def buy_filled (env : ExecEnv) (order : Order) (current_price : ℚ)
    (t_signal : Bool) : Quantity :=
  let filled := env.contain order.remaining order.exchange_pair t_signal
  if order.type = TradeType.MARKET then
    Quantity.scale
      (chosen_price order t_signal /
        max current_price (chosen_price order t_signal)) filled
  else
    filled

/-- The filled quantity a sell order computes (line 124): the remaining
amount converted by `contain`, with no market scaling. -/
def sell_filled (env : ExecEnv) (order : Order) (t_signal : Bool) : Quantity :=
  env.contain order.remaining order.exchange_pair t_signal

/-- The commission of lines 55 / 125: `options.commission * filled`. -/
def order_commission (options : ExchangeOptions) (filled : Quantity) :
    Quantity :=
  Quantity.scale options.commission filled

/-- The net quantity of lines 56 / 126: `filled - commission`. -/
def order_net (options : ExchangeOptions) (filled : Quantity) : Quantity :=
  Quantity.sub filled (order_commission options filled)

/-- The precision-guard condition of lines 58 / 127:
`commission.size < Decimal(10) ** -quantity.instrument.precision`, with
`Decimal(10) ** -p` embedded as the rational `1 / 10 ^ p`. -/
def below_precision (options : ExchangeOptions) (filled : Quantity) : Prop :=
  (order_commission options filled).size <
    1 / 10 ^ (order_net options filled).instrument.precision

instance (options : ExchangeOptions) (filled : Quantity) :
    Decidable (below_precision options filled) :=
  inferInstanceAs (Decidable ((order_commission options filled).size <
    1 / 10 ^ (order_net options filled).instrument.precision))

/-- The result of the precision-guard branch (lines 58–62 / 127–131): the
order is cancelled with reason `"COMMISSION IS LESS THAN PRECISION."`,
`None` is returned and no transfer happens. -/
def cancelResult : ExecResult :=
  { trade := none, transfers := [],
    cancel := some "COMMISSION IS LESS THAN PRECISION." }

/-- The arguments of the `Wallet.transfer` call at lines 64–72:
base→quote, net quantity, commission, reason `"BUY"`. -/
def buy_transfer_args (order : Order) (options : ExchangeOptions)
    (t_signal : Bool) (filled : Quantity) : TransferArgs :=
  { source := WalletRef.base, target := WalletRef.quote,
    quantity := order_net options filled,
    commission := order_commission options filled,
    exchange_pair := order.exchange_pair, reason := "BUY",
    t_signal := t_signal }

/-- The arguments of the `Wallet.transfer` call at lines 134–142:
quote→base, net quantity, commission, reason `"SELL"`. -/
def sell_transfer_args (order : Order) (options : ExchangeOptions)
    (t_signal : Bool) (filled : Quantity) : TransferArgs :=
  { source := WalletRef.quote, target := WalletRef.base,
    quantity := order_net options filled,
    commission := order_commission options filled,
    exchange_pair := order.exchange_pair, reason := "SELL",
    t_signal := t_signal }

/-- The `Trade` built at lines 74–83: side BUY, stamped with the clock's
step, and carrying the realized quantity, price and commission returned by
the transfer. -/
def buy_trade (env : ExecEnv) (order : Order) (options : ExchangeOptions)
    (clock : Clock) (t_signal : Bool) (filled : Quantity) : Trade :=
  { order_id := order.id, step := clock.step,
    exchange_pair := order.exchange_pair, side := TradeSide.BUY,
    trade_type := order.type,
    quantity := (env.transfer (buy_transfer_args order options t_signal filled)).quantity,
    price := (env.transfer (buy_transfer_args order options t_signal filled)).price,
    commission := (env.transfer (buy_transfer_args order options t_signal filled)).commission }

/-- The `Trade` built at lines 144–153: side SELL, otherwise as
`buy_trade`. -/
def sell_trade (env : ExecEnv) (order : Order) (options : ExchangeOptions)
    (clock : Clock) (t_signal : Bool) (filled : Quantity) : Trade :=
  { order_id := order.id, step := clock.step,
    exchange_pair := order.exchange_pair, side := TradeSide.SELL,
    trade_type := order.type,
    quantity := (env.transfer (sell_transfer_args order options t_signal filled)).quantity,
    price := (env.transfer (sell_transfer_args order options t_signal filled)).price,
    commission := (env.transfer (sell_transfer_args order options t_signal filled)).commission }

/-- Lines 55–85 of `simulated.py`: commission, net quantity, the precision
guard, then the base→quote transfer and the BUY trade built from the
realized transfer values. -/
def settle_buy (env : ExecEnv) (order : Order) (options : ExchangeOptions)
    (clock : Clock) (t_signal : Bool) (filled : Quantity) : ExecResult :=
  if below_precision options filled then
    cancelResult
  else
    { trade := some (buy_trade env order options clock t_signal filled),
      transfers := [buy_transfer_args order options t_signal filled],
      cancel := none }

/-- Lines 125–155 of `simulated.py`: identical to `settle_buy` except that
the transfer runs quote→base with reason `"SELL"` and the trade side is
SELL. -/
def settle_sell (env : ExecEnv) (order : Order) (options : ExchangeOptions)
    (clock : Clock) (t_signal : Bool) (filled : Quantity) : ExecResult :=
  if below_precision options filled then
    cancelResult
  else
    { trade := some (sell_trade env order options clock t_signal filled),
      transfers := [sell_transfer_args order options t_signal filled],
      cancel := none }

/-- `execute_buy_order` (lines 11–85).  A limit order whose chosen price is
below `current_price` returns `None`; a market order whose scale
denominator `max(current_price, chosen)` is zero raises
`ZeroDivisionError`; otherwise lines 55–85 run on the filled quantity. -/
def execute_buy_order (env : ExecEnv) (order : Order) (current_price : ℚ)
    (options : ExchangeOptions) (clock : Clock) (t_signal : Bool) :
    Except ExecError ExecResult :=
  if order.type = TradeType.LIMIT ∧
      chosen_price order t_signal < current_price then
    Except.ok ExecResult.noEffect
  else if order.type = TradeType.MARKET ∧
      max current_price (chosen_price order t_signal) = 0 then
    Except.error ExecError.zeroDivision
  else
    Except.ok (settle_buy env order options clock t_signal
      (buy_filled env order current_price t_signal))

/-- `execute_sell_order` (lines 88–155).  A limit order whose chosen price
is above `current_price` returns `None`; otherwise lines 124–155 run. -/
def execute_sell_order (env : ExecEnv) (order : Order) (current_price : ℚ)
    (options : ExchangeOptions) (clock : Clock) (t_signal : Bool) :
    Except ExecError ExecResult :=
  if order.type = TradeType.LIMIT ∧
      current_price < chosen_price order t_signal then
    Except.ok ExecResult.noEffect
  else
    Except.ok (settle_sell env order options clock t_signal
      (sell_filled env order t_signal))

/-- `execute_order` (lines 158–209).  In live mode (`not t_signal`) the
debug print evaluates `int(float(order.quantity.size) /
float(order.price_online))` before anything else, raising
`ZeroDivisionError` when `order.price_online == 0`; then the call
dispatches on `order.is_buy` / `order.is_sell`, and an order that is
neither returns `None`. -/
def execute_order (env : ExecEnv) (order : Order) (current_price : ℚ)
    (options : ExchangeOptions) (clock : Clock) (t_signal : Bool) :
    Except ExecError ExecResult :=
  if t_signal = false ∧ order.price_online = 0 then
    Except.error ExecError.zeroDivision
  else if order.is_buy then
    execute_buy_order env order current_price options clock t_signal
  else if order.is_sell then
    execute_sell_order env order current_price options clock t_signal
  else
    Except.ok ExecResult.noEffect

/-! Concrete fixtures used by witnesses and counterexamples. -/

/-- An 8-digit instrument, as in the spec's DOGE scenario. -/
def DOGE : Instrument := { symbol := "DOGE", precision := 8 }

/-- A 2-digit instrument for the base side. -/
def USDT : Instrument := { symbol := "USDT", precision := 2 }

/-- The USDT/DOGE pair of the spec's example scenario. -/
def samplePair : ExchangePair := { base := USDT, quote := DOGE }

/-- A concrete environment: `contain` returns its argument unchanged and
`transfer` echoes the request back at price 7. -/
def idEnv : ExecEnv :=
  { contain := fun q _ _ => q,
    transfer := fun a =>
      { quantity := a.quantity, price := 7, commission := a.commission } }

/-- A concrete clock. -/
def sampleClock : Clock := { step := 3 }

/-- A concrete limit buy order for 1 DOGE at price 2 (price_online 2). -/
def sampleBuyLimit : Order :=
  { id := "o1", type := TradeType.LIMIT, is_buy := true, is_sell := false,
    price := 2, price_online := 2,
    quantity := { size := 1, instrument := DOGE },
    remaining := { size := 1, instrument := DOGE },
    exchange_pair := samplePair }

/-- A concrete market buy order for 1 DOGE at price 2. -/
def sampleBuyMarket : Order :=
  { sampleBuyLimit with type := TradeType.MARKET }

/-- A concrete limit sell order for 1 DOGE at price 2. -/
def sampleSellLimit : Order :=
  { sampleBuyLimit with is_buy := false, is_sell := true }

/-- A concrete order that is neither buy nor sell, with zero online
price. -/
def sampleNeither : Order :=
  { sampleBuyLimit with
    is_buy := false,
    is_sell := false,
    price_online := 0 }

/-- A commission rate small enough that commission on 1 DOGE rounds below
the 8-digit precision (the spec's `rate = 1e-10` scenario). -/
def tinyRateOptions : ExchangeOptions := { commission := 1 / 10 ^ 10 }

/-- The spec's example rate of 0.1 percent. -/
def sampleOptions : ExchangeOptions := { commission := 1 / 1000 }

/-! Helper lemmas shared by the claim theorems. -/

/-- A settlement is either the precision-guard cancellation or a success
record carrying exactly one base→quote transfer and a BUY trade. -/
theorem settle_buy_cases (env : ExecEnv) (order : Order)
    (options : ExchangeOptions) (clock : Clock) (t_signal : Bool)
    (filled : Quantity) :
    (below_precision options filled ∧
      settle_buy env order options clock t_signal filled = cancelResult) ∨
    (¬ below_precision options filled ∧
      settle_buy env order options clock t_signal filled =
        { trade := some (buy_trade env order options clock t_signal filled),
          transfers := [buy_transfer_args order options t_signal filled],
          cancel := none }) := by
  by_cases hbp : below_precision options filled
  · exact Or.inl ⟨hbp, if_pos hbp⟩
  · exact Or.inr ⟨hbp, if_neg hbp⟩

/-- Sell analogue of `settle_buy_cases`. -/
theorem settle_sell_cases (env : ExecEnv) (order : Order)
    (options : ExchangeOptions) (clock : Clock) (t_signal : Bool)
    (filled : Quantity) :
    (below_precision options filled ∧
      settle_sell env order options clock t_signal filled = cancelResult) ∨
    (¬ below_precision options filled ∧
      settle_sell env order options clock t_signal filled =
        { trade := some (sell_trade env order options clock t_signal filled),
          transfers := [sell_transfer_args order options t_signal filled],
          cancel := none }) := by
  by_cases hbp : below_precision options filled
  · exact Or.inl ⟨hbp, if_pos hbp⟩
  · exact Or.inr ⟨hbp, if_neg hbp⟩

/-- With a positive current price the buy path cannot hit the
zero-division branch of the market scale. -/
theorem buy_scale_denom_pos (order : Order) (current_price : ℚ)
    (t_signal : Bool) (hc : 0 < current_price) :
    max current_price (chosen_price order t_signal) ≠ 0 :=
  ne_of_gt (lt_of_lt_of_le hc (le_max_left _ _))

/-- With a positive current price `execute_buy_order` always returns
normally. -/
theorem execute_buy_order_ok (env : ExecEnv) (order : Order)
    (current_price : ℚ) (options : ExchangeOptions) (clock : Clock)
    (t_signal : Bool) (hc : 0 < current_price) :
    ∃ r, execute_buy_order env order current_price options clock t_signal =
      Except.ok r := by
  unfold execute_buy_order
  split
  · exact ⟨_, rfl⟩
  · split
    · next h => exact absurd h.2 (buy_scale_denom_pos order current_price t_signal hc)
    · exact ⟨_, rfl⟩

/-- `execute_sell_order` always returns normally. -/
theorem execute_sell_order_ok (env : ExecEnv) (order : Order)
    (current_price : ℚ) (options : ExchangeOptions) (clock : Clock)
    (t_signal : Bool) :
    ∃ r, execute_sell_order env order current_price options clock t_signal =
      Except.ok r := by
  unfold execute_sell_order
  split
  · exact ⟨_, rfl⟩
  · exact ⟨_, rfl⟩

/-- Every normal return of the buy path is the ineligibility `None`, the
cancellation, or the success settlement on `buy_filled`. -/
theorem execute_buy_order_result (env : ExecEnv) (order : Order)
    (current_price : ℚ) (options : ExchangeOptions) (clock : Clock)
    (t_signal : Bool) (r : ExecResult)
    (h : execute_buy_order env order current_price options clock t_signal =
      Except.ok r) :
    (r = ExecResult.noEffect ∧ order.type = TradeType.LIMIT ∧
      chosen_price order t_signal < current_price) ∨
    (r = cancelResult ∧
      below_precision options (buy_filled env order current_price t_signal)) ∨
    (r = { trade := some (buy_trade env order options clock t_signal
            (buy_filled env order current_price t_signal)),
           transfers := [buy_transfer_args order options t_signal
            (buy_filled env order current_price t_signal)],
           cancel := none } ∧
      ¬ below_precision options (buy_filled env order current_price t_signal) ∧
      ¬ (order.type = TradeType.LIMIT ∧
          chosen_price order t_signal < current_price)) := by
  unfold execute_buy_order at h
  split at h
  · next hel =>
    cases h
    exact Or.inl ⟨rfl, hel⟩
  · next hel =>
    split at h
    · exact Except.noConfusion h
    · cases h
      rcases settle_buy_cases env order options clock t_signal
          (buy_filled env order current_price t_signal) with ⟨hbp, he⟩ | ⟨hbp, he⟩
      · exact Or.inr (Or.inl ⟨he, hbp⟩)
      · exact Or.inr (Or.inr ⟨he, hbp, hel⟩)

/-- Every normal return of the sell path is the ineligibility `None`, the
cancellation, or the success settlement on `sell_filled`. -/
theorem execute_sell_order_result (env : ExecEnv) (order : Order)
    (current_price : ℚ) (options : ExchangeOptions) (clock : Clock)
    (t_signal : Bool) (r : ExecResult)
    (h : execute_sell_order env order current_price options clock t_signal =
      Except.ok r) :
    (r = ExecResult.noEffect ∧ order.type = TradeType.LIMIT ∧
      current_price < chosen_price order t_signal) ∨
    (r = cancelResult ∧
      below_precision options (sell_filled env order t_signal)) ∨
    (r = { trade := some (sell_trade env order options clock t_signal
            (sell_filled env order t_signal)),
           transfers := [sell_transfer_args order options t_signal
            (sell_filled env order t_signal)],
           cancel := none } ∧
      ¬ below_precision options (sell_filled env order t_signal) ∧
      ¬ (order.type = TradeType.LIMIT ∧
          current_price < chosen_price order t_signal)) := by
  unfold execute_sell_order at h
  split at h
  · next hel =>
    cases h
    exact Or.inl ⟨rfl, hel⟩
  · next hel =>
    cases h
    rcases settle_sell_cases env order options clock t_signal
        (sell_filled env order t_signal) with ⟨hbp, he⟩ | ⟨hbp, he⟩
    · exact Or.inr (Or.inl ⟨he, hbp⟩)
    · exact Or.inr (Or.inr ⟨he, hbp, hel⟩)

/-- The dispatcher's four outcomes (line 187 guard, then lines 202–209). -/
theorem execute_order_result (env : ExecEnv) (order : Order)
    (current_price : ℚ) (options : ExchangeOptions) (clock : Clock)
    (t_signal : Bool) :
    (t_signal = false ∧ order.price_online = 0 ∧
      execute_order env order current_price options clock t_signal =
        Except.error ExecError.zeroDivision) ∨
    (¬ (t_signal = false ∧ order.price_online = 0) ∧
      ((order.is_buy = true ∧
        execute_order env order current_price options clock t_signal =
          execute_buy_order env order current_price options clock t_signal) ∨
      (order.is_buy = false ∧ order.is_sell = true ∧
        execute_order env order current_price options clock t_signal =
          execute_sell_order env order current_price options clock t_signal) ∨
      (order.is_buy = false ∧ order.is_sell = false ∧
        execute_order env order current_price options clock t_signal =
          Except.ok ExecResult.noEffect))) := by
  unfold execute_order
  by_cases h0 : t_signal = false ∧ order.price_online = 0
  · exact Or.inl ⟨h0.1, h0.2, if_pos h0⟩
  · refine Or.inr ⟨h0, ?_⟩
    rw [if_neg h0]
    by_cases hb : order.is_buy
    · exact Or.inl ⟨hb, if_pos hb⟩
    · rw [if_neg hb]
      by_cases hs : order.is_sell
      · exact Or.inr (Or.inl ⟨Bool.not_eq_true _ ▸ eq_false_of_ne_true hb, hs, if_pos hs⟩)
      · exact Or.inr (Or.inr ⟨Bool.not_eq_true _ ▸ eq_false_of_ne_true hb,
          Bool.not_eq_true _ ▸ eq_false_of_ne_true hs, if_neg hs⟩)

/-! Claim theorems. -/

/-- C10: in live mode (`t_signal = false`) the debug print divides
`order.quantity.size` by `order.price_online` before the side dispatch, so
with `price_online = 0` every live call fails with a division error — for
every order, including one that is neither buy nor sell or would be
rejected without effect — while with `price_online ≠ 0` and a positive
current price the live call always returns normally. -/
theorem C10_live_mode_division_by_zero (env : ExecEnv) (order : Order)
    (current_price : ℚ) (options : ExchangeOptions) (clock : Clock) :
    (order.price_online = 0 →
      execute_order env order current_price options clock false =
        Except.error ExecError.zeroDivision) ∧
    (order.price_online ≠ 0 → 0 < current_price →
      ∃ r, execute_order env order current_price options clock false =
        Except.ok r) := by
  constructor
  · intro h0
    unfold execute_order
    exact if_pos ⟨rfl, h0⟩
  · intro hne hc
    unfold execute_order
    rw [if_neg (fun h => hne h.2)]
    by_cases hb : order.is_buy
    · rw [if_pos hb]
      exact execute_buy_order_ok env order current_price options clock false hc
    · rw [if_neg hb]
      by_cases hs : order.is_sell
      · rw [if_pos hs]
        exact execute_sell_order_ok env order current_price options clock false
      · rw [if_neg hs]
        exact ⟨_, rfl⟩

/-- Witness for C10: a live call with `price_online = 0` fails even on an
order that is neither buy nor sell, and a live call with
`price_online = 2` on a limit buy returns normally. -/
theorem C10_live_mode_division_by_zero_witness :
    execute_order idEnv sampleNeither 1 sampleOptions sampleClock false =
      Except.error ExecError.zeroDivision ∧
    ∃ r, execute_order idEnv sampleBuyLimit 1 sampleOptions sampleClock false =
      Except.ok r :=
  ⟨(C10_live_mode_division_by_zero idEnv sampleNeither 1 sampleOptions
      sampleClock).1 rfl,
   (C10_live_mode_division_by_zero idEnv sampleBuyLimit 1 sampleOptions
      sampleClock).2 (by decide) (by decide)⟩

/-- Counterexample for C9 as stated: for an order that is neither buy nor
sell, a live-mode call with `price_online = 0` raises a division error
instead of returning null. -/
theorem C9_counterexample :
    sampleNeither.is_buy = false ∧ sampleNeither.is_sell = false ∧
    execute_order idEnv sampleNeither 1 sampleOptions sampleClock false =
      Except.error ExecError.zeroDivision ∧
    execute_order idEnv sampleNeither 1 sampleOptions sampleClock false ≠
      Except.ok ExecResult.noEffect :=
  ⟨rfl, rfl, rfl, fun h => Except.noConfusion h⟩

/-- C9 (amended): for every order that is neither buy nor sell,
`execute_order` returns null with no transfer and no cancellation —
provided the live-mode debug computation does not fail first, i.e. in
simulated mode or when `price_online ≠ 0`. -/
theorem C9_neither_side_no_trade (env : ExecEnv) (order : Order)
    (current_price : ℚ) (options : ExchangeOptions) (clock : Clock)
    (t_signal : Bool)
    (hb : order.is_buy = false) (hs : order.is_sell = false)
    (hl : t_signal = true ∨ order.price_online ≠ 0) :
    execute_order env order current_price options clock t_signal =
      Except.ok ExecResult.noEffect := by
  unfold execute_order
  have h0 : ¬ (t_signal = false ∧ order.price_online = 0) := by
    rcases hl with h | h
    · intro hx
      rw [h] at hx
      exact Bool.noConfusion hx.1
    · exact fun hx => h hx.2
  rw [if_neg h0, if_neg (by rw [hb]; exact Bool.noConfusion),
    if_neg (by rw [hs]; exact Bool.noConfusion)]

/-- Witness for C9: in simulated mode the neither-side order yields the
no-effect null result. -/
theorem C9_neither_side_no_trade_witness :
    execute_order idEnv sampleNeither 1 sampleOptions sampleClock true =
      Except.ok ExecResult.noEffect :=
  C9_neither_side_no_trade idEnv sampleNeither 1 sampleOptions sampleClock
    true rfl rfl (Or.inl rfl)

/-- C6: every normal `execute_order` call that returns no trade — an
ineligible limit order, a precision-guard cancellation, or a neither-side
order — performs no transfer at all, so neither wallet is mutated. -/
theorem C6_no_trade_no_transfer (env : ExecEnv) (order : Order)
    (current_price : ℚ) (options : ExchangeOptions) (clock : Clock)
    (t_signal : Bool) (r : ExecResult)
    (h : execute_order env order current_price options clock t_signal =
      Except.ok r)
    (ht : r.trade = none) :
    r.transfers = [] := by
  rcases execute_order_result env order current_price options clock t_signal
    with ⟨_, _, he⟩ | ⟨_, ⟨_, he⟩ | ⟨_, _, he⟩ | ⟨_, _, he⟩⟩
  · rw [he] at h
    exact Except.noConfusion h
  · rw [he] at h
    rcases execute_buy_order_result env order current_price options clock
        t_signal r h with ⟨hr, _⟩ | ⟨hr, _⟩ | ⟨hr, _⟩
    · rw [hr]; rfl
    · rw [hr]; rfl
    · rw [hr] at ht
      exact Option.noConfusion ht
  · rw [he] at h
    rcases execute_sell_order_result env order current_price options clock
        t_signal r h with ⟨hr, _⟩ | ⟨hr, _⟩ | ⟨hr, _⟩
    · rw [hr]; rfl
    · rw [hr]; rfl
    · rw [hr] at ht
      exact Option.noConfusion ht
  · rw [he] at h
    cases h
    rfl

/-- Witness for C6: a precision-guard cancellation on an eligible limit buy
carries an empty transfer list. -/
theorem C6_no_trade_no_transfer_witness :
    cancelResult.transfers = [] :=
  C6_no_trade_no_transfer idEnv sampleBuyLimit 1 tinyRateOptions sampleClock
    true cancelResult
    (by norm_num [execute_order, execute_buy_order, settle_buy, buy_filled,
      below_precision, order_commission, order_net, Quantity.scale,
      Quantity.sub, chosen_price, sampleBuyLimit, tinyRateOptions, idEnv,
      DOGE, samplePair, USDT, cancelResult])
    rfl

/-- Evaluating the buy path on the sample limit buy (price 2 ≥ current
price 1, rate 0.001): eligible, the guard passes, one base→quote transfer
and a BUY trade. -/
theorem sample_execute_buy_eq :
    execute_buy_order idEnv sampleBuyLimit 1 sampleOptions sampleClock true =
      Except.ok
        { trade := some (buy_trade idEnv sampleBuyLimit sampleOptions
            sampleClock true { size := 1, instrument := DOGE }),
          transfers := [buy_transfer_args sampleBuyLimit sampleOptions true
            { size := 1, instrument := DOGE }],
          cancel := none } := by
  norm_num [execute_buy_order, settle_buy, buy_filled, below_precision,
    order_commission, order_net, Quantity.scale, Quantity.sub, chosen_price,
    sampleBuyLimit, sampleOptions, idEnv, DOGE, samplePair, USDT]

/-- The dispatcher routes the sample limit buy to the buy path. -/
theorem sample_buy_dispatch :
    execute_order idEnv sampleBuyLimit 1 sampleOptions sampleClock true =
      execute_buy_order idEnv sampleBuyLimit 1 sampleOptions sampleClock
        true := by
  unfold execute_order
  rw [if_neg (by simp), if_pos (by decide)]

/-- The sample limit buy succeeds through `execute_order`. -/
theorem sample_buy_success :
    execute_order idEnv sampleBuyLimit 1 sampleOptions sampleClock true =
      Except.ok
        { trade := some (buy_trade idEnv sampleBuyLimit sampleOptions
            sampleClock true { size := 1, instrument := DOGE }),
          transfers := [buy_transfer_args sampleBuyLimit sampleOptions true
            { size := 1, instrument := DOGE }],
          cancel := none } :=
  sample_buy_dispatch.trans sample_execute_buy_eq

/-- Evaluating the sell path on the sample limit sell (price 2 ≤ current
price 3, rate 0.001): eligible, the guard passes, one quote→base transfer
and a SELL trade. -/
theorem sample_execute_sell_eq :
    execute_sell_order idEnv sampleSellLimit 3 sampleOptions sampleClock
        true =
      Except.ok
        { trade := some (sell_trade idEnv sampleSellLimit sampleOptions
            sampleClock true { size := 1, instrument := DOGE }),
          transfers := [sell_transfer_args sampleSellLimit sampleOptions true
            { size := 1, instrument := DOGE }],
          cancel := none } := by
  norm_num [execute_sell_order, settle_sell, sell_filled, below_precision,
    order_commission, order_net, Quantity.scale, Quantity.sub, chosen_price,
    sampleSellLimit, sampleBuyLimit, sampleOptions, idEnv, DOGE, samplePair,
    USDT]

/-- The dispatcher routes the sample limit sell to the sell path. -/
theorem sample_sell_dispatch :
    execute_order idEnv sampleSellLimit 3 sampleOptions sampleClock true =
      execute_sell_order idEnv sampleSellLimit 3 sampleOptions sampleClock
        true := by
  unfold execute_order
  rw [if_neg (by simp), if_neg (by decide), if_pos (by decide)]

/-- The sample limit sell succeeds through `execute_order`. -/
theorem sample_sell_success :
    execute_order idEnv sampleSellLimit 3 sampleOptions sampleClock true =
      Except.ok
        { trade := some (sell_trade idEnv sampleSellLimit sampleOptions
            sampleClock true { size := 1, instrument := DOGE }),
          transfers := [sell_transfer_args sampleSellLimit sampleOptions true
            { size := 1, instrument := DOGE }],
          cancel := none } :=
  sample_sell_dispatch.trans sample_execute_sell_eq

/-- C5: every transfer performed by `execute_order` runs base→quote with
reason BUY when the order is a buy, and quote→base with reason SELL when
the order is a sell and not a buy; no other routing occurs. -/
theorem C5_side_routing (env : ExecEnv) (order : Order) (current_price : ℚ)
    (options : ExchangeOptions) (clock : Clock) (t_signal : Bool)
    (r : ExecResult)
    (h : execute_order env order current_price options clock t_signal =
      Except.ok r) :
    ∀ a ∈ r.transfers,
      (order.is_buy = true →
        a.source = WalletRef.base ∧ a.target = WalletRef.quote ∧
        a.reason = "BUY") ∧
      (order.is_buy = false → order.is_sell = true →
        a.source = WalletRef.quote ∧ a.target = WalletRef.base ∧
        a.reason = "SELL") := by
  intro a ha
  rcases execute_order_result env order current_price options clock t_signal
    with ⟨_, _, he⟩ | ⟨_, ⟨hb, he⟩ | ⟨hb, hs, he⟩ | ⟨hb, hs, he⟩⟩
  · rw [he] at h
    exact Except.noConfusion h
  · rw [he] at h
    rcases execute_buy_order_result env order current_price options clock
        t_signal r h with ⟨hr, _⟩ | ⟨hr, _⟩ | ⟨hr, _, _⟩
    · subst hr
      exact absurd ha (List.not_mem_nil a)
    · subst hr
      exact absurd ha (List.not_mem_nil a)
    · subst hr
      have haeq := List.mem_singleton.mp ha
      subst haeq
      refine ⟨fun _ => ⟨rfl, rfl, rfl⟩, fun hb' _ => ?_⟩
      rw [hb] at hb'
      exact Bool.noConfusion hb'
  · rw [he] at h
    rcases execute_sell_order_result env order current_price options clock
        t_signal r h with ⟨hr, _⟩ | ⟨hr, _⟩ | ⟨hr, _, _⟩
    · subst hr
      exact absurd ha (List.not_mem_nil a)
    · subst hr
      exact absurd ha (List.not_mem_nil a)
    · subst hr
      have haeq := List.mem_singleton.mp ha
      subst haeq
      refine ⟨fun hb' => ?_, fun _ _ => ⟨rfl, rfl, rfl⟩⟩
      rw [hb] at hb'
      exact Bool.noConfusion hb'
  · rw [he] at h
    cases h
    exact absurd ha (List.not_mem_nil a)

/-- Witness for C5: the sample buy's single transfer runs base→quote with
reason BUY. -/
theorem C5_side_routing_witness :
    (buy_transfer_args sampleBuyLimit sampleOptions true
      { size := 1, instrument := DOGE }).source = WalletRef.base ∧
    (buy_transfer_args sampleBuyLimit sampleOptions true
      { size := 1, instrument := DOGE }).target = WalletRef.quote ∧
    (buy_transfer_args sampleBuyLimit sampleOptions true
      { size := 1, instrument := DOGE }).reason = "BUY" := by
  have h := C5_side_routing idEnv sampleBuyLimit 1 sampleOptions sampleClock
    true _ sample_buy_success
    (buy_transfer_args sampleBuyLimit sampleOptions true
      { size := 1, instrument := DOGE })
    (List.mem_singleton.mpr rfl)
  exact h.1 rfl

/-- C8: a successful execution returns exactly one trade, stamped with the
order's id, the clock's step, the order's pair and type, the side matching
the dispatch, and quantity, price and commission all taken from the value
the transfer returned, with exactly one transfer performed. -/
theorem C8_trade_from_transfer (env : ExecEnv) (order : Order)
    (current_price : ℚ) (options : ExchangeOptions) (clock : Clock)
    (t_signal : Bool) (r : ExecResult) (tr : Trade)
    (h : execute_order env order current_price options clock t_signal =
      Except.ok r)
    (htr : r.trade = some tr) :
    tr.order_id = order.id ∧ tr.step = clock.step ∧
    tr.exchange_pair = order.exchange_pair ∧ tr.trade_type = order.type ∧
    (order.is_buy = true → tr.side = TradeSide.BUY) ∧
    (order.is_buy = false → tr.side = TradeSide.SELL) ∧
    ∃ a, r.transfers = [a] ∧
      tr.quantity = (env.transfer a).quantity ∧
      tr.price = (env.transfer a).price ∧
      tr.commission = (env.transfer a).commission := by
  rcases execute_order_result env order current_price options clock t_signal
    with ⟨_, _, he⟩ | ⟨_, ⟨hb, he⟩ | ⟨hb, hs, he⟩ | ⟨hb, hs, he⟩⟩
  · rw [he] at h
    exact Except.noConfusion h
  · rw [he] at h
    rcases execute_buy_order_result env order current_price options clock
        t_signal r h with ⟨hr, _⟩ | ⟨hr, _⟩ | ⟨hr, _, _⟩
    · subst hr
      exact Option.noConfusion htr
    · subst hr
      exact Option.noConfusion htr
    · subst hr
      have htr' : buy_trade env order options clock t_signal
          (buy_filled env order current_price t_signal) = tr := by
        injection htr
      subst htr'
      refine ⟨rfl, rfl, rfl, rfl, fun _ => rfl, fun hb' => ?_, ?_⟩
      · rw [hb] at hb'
        exact Bool.noConfusion hb'
      · exact ⟨buy_transfer_args order options t_signal
          (buy_filled env order current_price t_signal), rfl, rfl, rfl, rfl⟩
  · rw [he] at h
    rcases execute_sell_order_result env order current_price options clock
        t_signal r h with ⟨hr, _⟩ | ⟨hr, _⟩ | ⟨hr, _, _⟩
    · subst hr
      exact Option.noConfusion htr
    · subst hr
      exact Option.noConfusion htr
    · subst hr
      have htr' : sell_trade env order options clock t_signal
          (sell_filled env order t_signal) = tr := by
        injection htr
      subst htr'
      refine ⟨rfl, rfl, rfl, rfl, fun hb' => ?_, fun _ => rfl, ?_⟩
      · rw [hb] at hb'
        exact Bool.noConfusion hb'
      · exact ⟨sell_transfer_args order options t_signal
          (sell_filled env order t_signal), rfl, rfl, rfl, rfl⟩
  · rw [he] at h
    cases h
    exact Option.noConfusion htr

/-- Witness for C8: the sample sell's trade carries the order id, the
clock step and the realized transfer values. -/
theorem C8_trade_from_transfer_witness :
    (sell_trade idEnv sampleSellLimit sampleOptions sampleClock true
      { size := 1, instrument := DOGE }).order_id = "o1" ∧
    (sell_trade idEnv sampleSellLimit sampleOptions sampleClock true
      { size := 1, instrument := DOGE }).step = 3 ∧
    (sell_trade idEnv sampleSellLimit sampleOptions sampleClock true
      { size := 1, instrument := DOGE }).side = TradeSide.SELL := by
  have h := C8_trade_from_transfer idEnv sampleSellLimit 3 sampleOptions
    sampleClock true _ _ sample_sell_success rfl
  exact ⟨h.1, h.2.1, h.2.2.2.2.2.1 rfl⟩

/-- C4: on both sides, the transfer's commission is the commission rate
times the filled quantity, kept in the filled quantity's instrument, and
the transfer's quantity is the filled quantity minus that commission. -/
theorem C4_commission_and_net (env : ExecEnv) (order : Order)
    (current_price : ℚ) (options : ExchangeOptions) (clock : Clock)
    (t_signal : Bool) :
    (∀ r, execute_buy_order env order current_price options clock t_signal =
        Except.ok r → ∀ a ∈ r.transfers,
      a.commission = Quantity.scale options.commission
        (buy_filled env order current_price t_signal) ∧
      a.commission.instrument =
        (buy_filled env order current_price t_signal).instrument ∧
      a.commission.size = options.commission *
        (buy_filled env order current_price t_signal).size ∧
      a.quantity = Quantity.sub (buy_filled env order current_price t_signal)
        (Quantity.scale options.commission
          (buy_filled env order current_price t_signal))) ∧
    (∀ r, execute_sell_order env order current_price options clock t_signal =
        Except.ok r → ∀ a ∈ r.transfers,
      a.commission = Quantity.scale options.commission
        (sell_filled env order t_signal) ∧
      a.commission.instrument = (sell_filled env order t_signal).instrument ∧
      a.commission.size = options.commission *
        (sell_filled env order t_signal).size ∧
      a.quantity = Quantity.sub (sell_filled env order t_signal)
        (Quantity.scale options.commission
          (sell_filled env order t_signal))) := by
  constructor
  · intro r h a ha
    rcases execute_buy_order_result env order current_price options clock
        t_signal r h with ⟨hr, _⟩ | ⟨hr, _⟩ | ⟨hr, _, _⟩
    · subst hr
      exact absurd ha (List.not_mem_nil a)
    · subst hr
      exact absurd ha (List.not_mem_nil a)
    · subst hr
      have haeq := List.mem_singleton.mp ha
      subst haeq
      exact ⟨rfl, rfl, rfl, rfl⟩
  · intro r h a ha
    rcases execute_sell_order_result env order current_price options clock
        t_signal r h with ⟨hr, _⟩ | ⟨hr, _⟩ | ⟨hr, _, _⟩
    · subst hr
      exact absurd ha (List.not_mem_nil a)
    · subst hr
      exact absurd ha (List.not_mem_nil a)
    · subst hr
      have haeq := List.mem_singleton.mp ha
      subst haeq
      exact ⟨rfl, rfl, rfl, rfl⟩

/-- Witness for C4: on the sample limit buy, the transfer's commission and
net quantity are the rate-scaled fill and the fill minus commission. -/
theorem C4_commission_and_net_witness :
    (buy_transfer_args sampleBuyLimit sampleOptions true
      { size := 1, instrument := DOGE }).commission =
      Quantity.scale sampleOptions.commission
        { size := 1, instrument := DOGE } ∧
    (buy_transfer_args sampleBuyLimit sampleOptions true
      { size := 1, instrument := DOGE }).quantity =
      Quantity.sub { size := 1, instrument := DOGE }
        (Quantity.scale sampleOptions.commission
          { size := 1, instrument := DOGE }) := by
  have h := (C4_commission_and_net idEnv sampleBuyLimit 1 sampleOptions
    sampleClock true).1 _ sample_execute_buy_eq
    (buy_transfer_args sampleBuyLimit sampleOptions true
      { size := 1, instrument := DOGE })
    (List.mem_singleton.mpr rfl)
  exact ⟨h.1, h.2.2.2⟩

/-- Helper: for a market order the filled quantity is the scaled converted
remaining amount. -/
theorem buy_filled_market (env : ExecEnv) (order : Order)
    (current_price : ℚ) (t_signal : Bool)
    (hm : order.type = TradeType.MARKET) :
    buy_filled env order current_price t_signal =
      Quantity.scale
        (chosen_price order t_signal /
          max current_price (chosen_price order t_signal))
        (env.contain order.remaining order.exchange_pair t_signal) := by
  simp [buy_filled, hm]

/-- Counterexample for C1 as stated: the code's cancellation reason string
carries a trailing period.  On an eligible limit buy whose commission
falls below the precision bound, the order is cancelled with reason
`"COMMISSION IS LESS THAN PRECISION."`, which differs from the claimed
`"COMMISSION IS LESS THAN PRECISION"`. -/
theorem C1_counterexample :
    execute_buy_order idEnv sampleBuyLimit 1 tinyRateOptions sampleClock
        true = Except.ok cancelResult ∧
    below_precision tinyRateOptions
      (buy_filled idEnv sampleBuyLimit 1 true) ∧
    cancelResult.cancel = some "COMMISSION IS LESS THAN PRECISION." ∧
    cancelResult.cancel ≠ some "COMMISSION IS LESS THAN PRECISION" := by
  refine ⟨?_, ?_, rfl, by decide⟩
  · norm_num [execute_buy_order, settle_buy, buy_filled, below_precision,
      order_commission, order_net, Quantity.scale, Quantity.sub,
      chosen_price, sampleBuyLimit, tinyRateOptions, idEnv, DOGE,
      samplePair, USDT, cancelResult]
  · norm_num [below_precision, buy_filled, order_commission, order_net,
      Quantity.scale, Quantity.sub, chosen_price, sampleBuyLimit,
      tinyRateOptions, idEnv, DOGE, samplePair, USDT]

/-- C1 (amended): with a positive current price, for every order that
passes eligibility on its side, if the computed commission is strictly
below `10^(-p)` where `p` is the net quantity's instrument precision, the
order is cancelled with reason `"COMMISSION IS LESS THAN PRECISION."`
(the code's reason string ends with a period), no transfer is performed
and no trade is returned. -/
theorem C1_precision_guard (env : ExecEnv) (order : Order)
    (current_price : ℚ) (options : ExchangeOptions) (clock : Clock)
    (t_signal : Bool) (hc : 0 < current_price) :
    (¬ (order.type = TradeType.LIMIT ∧
        chosen_price order t_signal < current_price) →
      below_precision options
        (buy_filled env order current_price t_signal) →
      execute_buy_order env order current_price options clock t_signal =
        Except.ok cancelResult) ∧
    (¬ (order.type = TradeType.LIMIT ∧
        current_price < chosen_price order t_signal) →
      below_precision options (sell_filled env order t_signal) →
      execute_sell_order env order current_price options clock t_signal =
        Except.ok cancelResult) := by
  constructor
  · intro hel hbp
    unfold execute_buy_order
    rw [if_neg hel, if_neg (fun hx =>
      buy_scale_denom_pos order current_price t_signal hc hx.2)]
    unfold settle_buy
    rw [if_pos hbp]
  · intro hel hbp
    unfold execute_sell_order
    rw [if_neg hel]
    unfold settle_sell
    rw [if_pos hbp]

/-- Witness for C1: the sample eligible limit sell with the tiny rate is
cancelled with the period-terminated reason and no transfer. -/
theorem C1_precision_guard_witness :
    execute_sell_order idEnv sampleSellLimit 3 tinyRateOptions sampleClock
        true = Except.ok cancelResult :=
  (C1_precision_guard idEnv sampleSellLimit 3 tinyRateOptions sampleClock
      true (by norm_num)).2
    (by norm_num [chosen_price, sampleSellLimit, sampleBuyLimit])
    (by norm_num [below_precision, sell_filled, order_commission, order_net,
      Quantity.scale, Quantity.sub, sampleSellLimit, sampleBuyLimit,
      tinyRateOptions, idEnv, DOGE, samplePair, USDT])

/-- C2: for a buy market order with positive current price, the scale
factor is `min 1 (chosen/current)` and never exceeds one, so the scaled
fill is at most the unscaled converted remaining amount whenever that
amount is nonnegative; the buy path settles exactly this filled
quantity. -/
theorem C2_buy_market_scaling (env : ExecEnv) (order : Order)
    (current_price : ℚ) (options : ExchangeOptions) (clock : Clock)
    (t_signal : Bool) (hc : 0 < current_price)
    (hm : order.type = TradeType.MARKET) :
    (buy_filled env order current_price t_signal).size =
      min 1 (chosen_price order t_signal / current_price) *
        (env.contain order.remaining order.exchange_pair t_signal).size ∧
    chosen_price order t_signal /
        max current_price (chosen_price order t_signal) ≤ 1 ∧
    (0 ≤ (env.contain order.remaining order.exchange_pair t_signal).size →
      (buy_filled env order current_price t_signal).size ≤
        (env.contain order.remaining order.exchange_pair t_signal).size) ∧
    execute_buy_order env order current_price options clock t_signal =
      Except.ok (settle_buy env order options clock t_signal
        (buy_filled env order current_price t_signal)) := by
  have hd : 0 < max current_price (chosen_price order t_signal) :=
    lt_of_lt_of_le hc (le_max_left _ _)
  have key : chosen_price order t_signal /
      max current_price (chosen_price order t_signal) =
      min 1 (chosen_price order t_signal / current_price) := by
    rcases le_total (chosen_price order t_signal) current_price with hp | hp
    · rw [max_eq_left hp, min_eq_right ((div_le_one hc).mpr hp)]
    · rw [max_eq_right hp, div_self (ne_of_gt (lt_of_lt_of_le hc hp)),
        min_eq_left ((one_le_div hc).mpr hp)]
  have h1 : (buy_filled env order current_price t_signal).size =
      min 1 (chosen_price order t_signal / current_price) *
        (env.contain order.remaining order.exchange_pair t_signal).size := by
    rw [buy_filled_market env order current_price t_signal hm,
      Quantity.scale, key]
  refine ⟨h1, ?_, ?_, ?_⟩
  · exact (div_le_one hd).mpr (le_max_right _ _)
  · intro h0
    rw [h1]
    exact mul_le_of_le_one_left h0 (min_le_left _ _)
  · unfold execute_buy_order
    rw [if_neg (fun hx => by rw [hm] at hx; exact TradeType.noConfusion hx.1),
      if_neg (fun hx =>
        buy_scale_denom_pos order current_price t_signal hc hx.2)]

/-- Witness for C2: the sample market buy at current price 1 and chosen
price 2. -/
theorem C2_buy_market_scaling_witness :
    (buy_filled idEnv sampleBuyMarket 1 true).size =
      min 1 (chosen_price sampleBuyMarket true / 1) *
        (idEnv.contain sampleBuyMarket.remaining
          sampleBuyMarket.exchange_pair true).size ∧
    chosen_price sampleBuyMarket true /
        max 1 (chosen_price sampleBuyMarket true) ≤ 1 ∧
    (0 ≤ (idEnv.contain sampleBuyMarket.remaining
        sampleBuyMarket.exchange_pair true).size →
      (buy_filled idEnv sampleBuyMarket 1 true).size ≤
        (idEnv.contain sampleBuyMarket.remaining
          sampleBuyMarket.exchange_pair true).size) ∧
    execute_buy_order idEnv sampleBuyMarket 1 sampleOptions sampleClock
        true =
      Except.ok (settle_buy idEnv sampleBuyMarket sampleOptions sampleClock
        true (buy_filled idEnv sampleBuyMarket 1 true)) :=
  C2_buy_market_scaling idEnv sampleBuyMarket 1 sampleOptions sampleClock
    true (by norm_num) rfl

/-- C3: a limit buy executes only when its chosen price is at least the
current price, a limit sell only when its chosen price is at most the
current price; an ineligible limit order returns null with no effect, and
a market order is never rejected on eligibility — any no-trade outcome of
a market order is a precision-guard cancellation. -/
theorem C3_limit_eligibility (env : ExecEnv) (order : Order)
    (current_price : ℚ) (options : ExchangeOptions) (clock : Clock)
    (t_signal : Bool) :
    (order.type = TradeType.LIMIT →
      chosen_price order t_signal < current_price →
      execute_buy_order env order current_price options clock t_signal =
        Except.ok ExecResult.noEffect) ∧
    (∀ r, execute_buy_order env order current_price options clock t_signal =
        Except.ok r → r.trade.isSome = true →
      order.type = TradeType.LIMIT →
      current_price ≤ chosen_price order t_signal) ∧
    (order.type = TradeType.MARKET →
      ∀ r, execute_buy_order env order current_price options clock t_signal =
        Except.ok r → r.trade = none → r.cancel.isSome = true) ∧
    (order.type = TradeType.LIMIT →
      current_price < chosen_price order t_signal →
      execute_sell_order env order current_price options clock t_signal =
        Except.ok ExecResult.noEffect) ∧
    (∀ r, execute_sell_order env order current_price options clock t_signal =
        Except.ok r → r.trade.isSome = true →
      order.type = TradeType.LIMIT →
      chosen_price order t_signal ≤ current_price) ∧
    (order.type = TradeType.MARKET →
      ∀ r, execute_sell_order env order current_price options clock t_signal =
        Except.ok r → r.trade = none → r.cancel.isSome = true) := by
  refine ⟨?_, ?_, ?_, ?_, ?_, ?_⟩
  · intro hl hlt
    unfold execute_buy_order
    rw [if_pos ⟨hl, hlt⟩]
  · intro r h hsome hl
    rcases execute_buy_order_result env order current_price options clock
        t_signal r h with ⟨hr, _, _⟩ | ⟨hr, _⟩ | ⟨hr, _, hel⟩
    · subst hr
      exact Bool.noConfusion hsome
    · subst hr
      exact Bool.noConfusion hsome
    · subst hr
      exact le_of_not_lt (fun hlt => hel ⟨hl, hlt⟩)
  · intro hm r h ht
    rcases execute_buy_order_result env order current_price options clock
        t_signal r h with ⟨hr, hl, _⟩ | ⟨hr, _⟩ | ⟨hr, _, _⟩
    · rw [hm] at hl
      exact TradeType.noConfusion hl
    · subst hr
      rfl
    · subst hr
      exact Option.noConfusion ht
  · intro hl hlt
    unfold execute_sell_order
    rw [if_pos ⟨hl, hlt⟩]
  · intro r h hsome hl
    rcases execute_sell_order_result env order current_price options clock
        t_signal r h with ⟨hr, _, _⟩ | ⟨hr, _⟩ | ⟨hr, _, hel⟩
    · subst hr
      exact Bool.noConfusion hsome
    · subst hr
      exact Bool.noConfusion hsome
    · subst hr
      exact le_of_not_lt (fun hlt => hel ⟨hl, hlt⟩)
  · intro hm r h ht
    rcases execute_sell_order_result env order current_price options clock
        t_signal r h with ⟨hr, hl, _⟩ | ⟨hr, _⟩ | ⟨hr, _, _⟩
    · rw [hm] at hl
      exact TradeType.noConfusion hl
    · subst hr
      rfl
    · subst hr
      exact Option.noConfusion ht

/-- Witness for C3: an ineligible limit buy (current price 5 above the
limit 2) and an ineligible limit sell (current price 1 below the limit 2)
both return the no-effect null. -/
theorem C3_limit_eligibility_witness :
    execute_buy_order idEnv sampleBuyLimit 5 sampleOptions sampleClock
        true = Except.ok ExecResult.noEffect ∧
    execute_sell_order idEnv sampleSellLimit 1 sampleOptions sampleClock
        true = Except.ok ExecResult.noEffect :=
  ⟨(C3_limit_eligibility idEnv sampleBuyLimit 5 sampleOptions sampleClock
      true).1 rfl (by norm_num [chosen_price, sampleBuyLimit]),
   (C3_limit_eligibility idEnv sampleSellLimit 1 sampleOptions sampleClock
      true).2.2.2.1 rfl
    (by norm_num [chosen_price, sampleSellLimit, sampleBuyLimit])⟩

/-- C7: an eligible sell order's filled quantity is exactly the converted
remaining amount with no market-scaling adjustment, whatever the order
type: the settlement input is `env.contain` of the remaining amount, and
the whole sell execution does not depend on which eligible current price
is supplied. -/
theorem C7_sell_fill_unscaled (env : ExecEnv) (order : Order) (c₁ c₂ : ℚ)
    (options : ExchangeOptions) (clock : Clock) (t_signal : Bool)
    (h₁ : ¬ (order.type = TradeType.LIMIT ∧
      c₁ < chosen_price order t_signal))
    (h₂ : ¬ (order.type = TradeType.LIMIT ∧
      c₂ < chosen_price order t_signal)) :
    execute_sell_order env order c₁ options clock t_signal =
      Except.ok (settle_sell env order options clock t_signal
        (env.contain order.remaining order.exchange_pair t_signal)) ∧
    execute_sell_order env order c₁ options clock t_signal =
      execute_sell_order env order c₂ options clock t_signal := by
  have e₁ : execute_sell_order env order c₁ options clock t_signal =
      Except.ok (settle_sell env order options clock t_signal
        (env.contain order.remaining order.exchange_pair t_signal)) := by
    unfold execute_sell_order
    rw [if_neg h₁]
    rfl
  have e₂ : execute_sell_order env order c₂ options clock t_signal =
      Except.ok (settle_sell env order options clock t_signal
        (env.contain order.remaining order.exchange_pair t_signal)) := by
    unfold execute_sell_order
    rw [if_neg h₂]
    rfl
  exact ⟨e₁, e₁.trans e₂.symm⟩

/-- Witness for C7: the sample limit sell settles the converted remaining
amount identically at current prices 3 and 5. -/
theorem C7_sell_fill_unscaled_witness :
    execute_sell_order idEnv sampleSellLimit 3 sampleOptions sampleClock
        true =
      Except.ok (settle_sell idEnv sampleSellLimit sampleOptions sampleClock
        true (idEnv.contain sampleSellLimit.remaining
          sampleSellLimit.exchange_pair true)) ∧
    execute_sell_order idEnv sampleSellLimit 3 sampleOptions sampleClock
        true =
      execute_sell_order idEnv sampleSellLimit 5 sampleOptions sampleClock
        true :=
  C7_sell_fill_unscaled idEnv sampleSellLimit 3 5 sampleOptions sampleClock
    true (by norm_num [chosen_price, sampleSellLimit, sampleBuyLimit])
    (by norm_num [chosen_price, sampleSellLimit, sampleBuyLimit])

end TensorTrade
